import Mathlib

/-!
Shallow embedding of `src/bswlib/Platform/Std_Types.h`, the AUTOSAR
standard-types header. The header declares only preprocessor constants,
typedefs and one function-pointer signature; we embed the fixed-width
unsigned integer types as `Fin (2 ^ w)`, the `#define` constants as `Nat`
values (C macros are untyped unsigned literals), the struct typedefs as
Lean structures, and the function-pointer typedef as a Lean function type
in which the two out-parameters are modelled as extra components of the
result.
-/

/-- 8-bit unsigned integer (`uint8` from Platform_Types.h). -/
abbrev uint8 := Fin 256

/-- 16-bit unsigned integer (`uint16` from Platform_Types.h). -/
abbrev uint16 := Fin 65536

/-- 32-bit unsigned integer (`uint32` from Platform_Types.h). -/
abbrev uint32 := Fin 4294967296

/-- `# define STD_TYPES_VENDOR_ID (30u)` -/
def STD_TYPES_VENDOR_ID : Nat := 30

/-- `# define STD_TYPES_MODULE_ID (197u)` -/
def STD_TYPES_MODULE_ID : Nat := 197

/-- `# define STD_VENDOR_ID STD_TYPES_VENDOR_ID` -/
def STD_VENDOR_ID : Nat := STD_TYPES_VENDOR_ID

/-- `# define STD_MODULE_ID STD_TYPES_MODULE_ID` -/
def STD_MODULE_ID : Nat := STD_TYPES_MODULE_ID

/-- `# define STD_TYPES_AR_RELEASE_MAJOR_VERSION (4u)` -/
def STD_TYPES_AR_RELEASE_MAJOR_VERSION : Nat := 4

/-- `# define STD_TYPES_AR_RELEASE_MINOR_VERSION (7u)` -/
def STD_TYPES_AR_RELEASE_MINOR_VERSION : Nat := 7

/-- `# define STD_TYPES_AR_RELEASE_REVISION_VERSION (0u)` -/
def STD_TYPES_AR_RELEASE_REVISION_VERSION : Nat := 0

/-- `# define STD_AR_RELEASE_MAJOR_VERSION STD_TYPES_AR_RELEASE_MAJOR_VERSION` -/
def STD_AR_RELEASE_MAJOR_VERSION : Nat := STD_TYPES_AR_RELEASE_MAJOR_VERSION

/-- `# define STD_AR_RELEASE_MINOR_VERSION STD_TYPES_AR_RELEASE_MINOR_VERSION` -/
def STD_AR_RELEASE_MINOR_VERSION : Nat := STD_TYPES_AR_RELEASE_MINOR_VERSION

/-- `# define STD_AR_RELEASE_REVISION_VERSION STD_TYPES_AR_RELEASE_REVISION_VERSION` -/
def STD_AR_RELEASE_REVISION_VERSION : Nat := STD_TYPES_AR_RELEASE_REVISION_VERSION

/-- `# define STD_TYPES_SW_MAJOR_VERSION (3u)` -/
def STD_TYPES_SW_MAJOR_VERSION : Nat := 3

/-- `# define STD_TYPES_SW_MINOR_VERSION (6u)` -/
def STD_TYPES_SW_MINOR_VERSION : Nat := 6

/-- `# define STD_TYPES_SW_PATCH_VERSION (0u)` -/
def STD_TYPES_SW_PATCH_VERSION : Nat := 0

/-- `# define STD_SW_MAJOR_VERSION STD_TYPES_SW_MAJOR_VERSION` -/
def STD_SW_MAJOR_VERSION : Nat := STD_TYPES_SW_MAJOR_VERSION

/-- `# define STD_SW_MINOR_VERSION STD_TYPES_SW_MINOR_VERSION` -/
def STD_SW_MINOR_VERSION : Nat := STD_TYPES_SW_MINOR_VERSION

/-- `# define STD_SW_PATCH_VERSION STD_TYPES_SW_PATCH_VERSION` -/
def STD_SW_PATCH_VERSION : Nat := STD_TYPES_SW_PATCH_VERSION

/-- `# define STD_HIGH 1u` (physical state 5V or 3.3V). -/
def STD_HIGH : Nat := 1

/-- `# define STD_LOW 0u` (physical state 0V). -/
def STD_LOW : Nat := 0

/-- `# define STD_ACTIVE 1u` (logical state active). -/
def STD_ACTIVE : Nat := 1

/-- `# define STD_IDLE 0u` (logical state idle). -/
def STD_IDLE : Nat := 0

/-- `# define STD_ON 1u` -/
def STD_ON : Nat := 1

/-- `# define STD_OFF 0u` -/
def STD_OFF : Nat := 0

/-- `# define E_OK 0u` -/
def E_OK : Nat := 0

/-- `# define E_NOT_OK 1u` -/
def E_NOT_OK : Nat := 1

/-- `typedef uint8 Std_ReturnType;` -/
abbrev Std_ReturnType := uint8

/-- `typedef struct { uint16 vendorID; uint16 moduleID; uint8 sw_major_version; uint8 sw_minor_version; uint8 sw_patch_version; } Std_VersionInfoType;` -/
structure Std_VersionInfoType where
  vendorID : uint16
  moduleID : uint16
  sw_major_version : uint8
  sw_minor_version : uint8
  sw_patch_version : uint8
  deriving DecidableEq

/-- `typedef uint8 Std_TransformerErrorCode;` -/
abbrev Std_TransformerErrorCode := uint8

/-- `typedef uint8 Std_TransformerClass;` -/
abbrev Std_TransformerClass := uint8

/-- `# define STD_TRANSFORMER_UNSPECIFIED 0u` -/
def STD_TRANSFORMER_UNSPECIFIED : Nat := 0

/-- `# define STD_TRANSFORMER_SERIALIZER 1u` -/
def STD_TRANSFORMER_SERIALIZER : Nat := 1

/-- `# define STD_TRANSFORMER_SAFETY 2u` -/
def STD_TRANSFORMER_SAFETY : Nat := 2

/-- `# define STD_TRANSFORMER_SECURITY 3u` -/
def STD_TRANSFORMER_SECURITY : Nat := 3

/-- `# define STD_TRANSFORMER_CUSTOM 0xFFu` -/
def STD_TRANSFORMER_CUSTOM : Nat := 0xFF

/-- `typedef uint8 Std_MessageTypeType;` -/
abbrev Std_MessageTypeType := uint8

/-- `# define STD_MESSAGETYPE_REQUEST 0u` -/
def STD_MESSAGETYPE_REQUEST : Nat := 0

/-- `# define STD_MESSAGETYPE_RESPONSE 1u` -/
def STD_MESSAGETYPE_RESPONSE : Nat := 1

/-- `typedef uint8 Std_MessageResultType;` -/
abbrev Std_MessageResultType := uint8

/-- `# define STD_MESSAGERESULT_OK 0u` -/
def STD_MESSAGERESULT_OK : Nat := 0

/-- `# define STD_MESSAGERESULT_ERROR 1u` -/
def STD_MESSAGERESULT_ERROR : Nat := 1

/-- `typedef struct { Std_TransformerErrorCode errorCode; Std_TransformerClass transformerClass; } Std_TransformerError;` -/
structure Std_TransformerError where
  errorCode : Std_TransformerErrorCode
  transformerClass : Std_TransformerClass
  deriving DecidableEq

/-- `typedef Std_ReturnType (*Std_ExtractProtocolHeaderFieldsType)(const uint8* buffer, uint32 bufferLength, Std_MessageTypeType* messageType, Std_MessageResultType* messageResult);`
The pointer to a constant byte buffer is embedded as a list of bytes; the
two caller-supplied out-parameter locations are embedded as the second and
third components of the result, alongside the returned status code. -/
def Std_ExtractProtocolHeaderFieldsType : Type :=
  List uint8 → uint32 → Std_ReturnType × Std_MessageTypeType × Std_MessageResultType

/-- Spec-side signature, following the spec's words: a callback that, given
a byte buffer and its 32-bit length, extracts a message-type tag and a
message-result tag through the two caller-supplied output locations
(embedded as result components) and returns the standard success/failure
code. Written to be compared with `Std_ExtractProtocolHeaderFieldsType`. -/
def SpecExtractProtocolHeaderCallbackSig : Type :=
  List uint8 → uint32 → Std_ReturnType × Std_MessageTypeType × Std_MessageResultType

/-- C1: the success status constant E_OK equals 0 and the failure status
constant E_NOT_OK equals 1, and the two constants are distinct. -/
theorem C1_status_constants :
    E_OK = 0 ∧ E_NOT_OK = 1 ∧ E_OK ≠ E_NOT_OK := by
  decide

/-- C2: every Std_VersionInfoType constructed from five given field values
reads each of the five fields back unchanged; in particular for
vendor=30, module=197, major=3, minor=6, patch=0. -/
theorem C2_versionInfo_roundtrip :
    (∀ (v m : uint16) (a b c : uint8),
      (Std_VersionInfoType.mk v m a b c).vendorID = v ∧
      (Std_VersionInfoType.mk v m a b c).moduleID = m ∧
      (Std_VersionInfoType.mk v m a b c).sw_major_version = a ∧
      (Std_VersionInfoType.mk v m a b c).sw_minor_version = b ∧
      (Std_VersionInfoType.mk v m a b c).sw_patch_version = c) ∧
    ((Std_VersionInfoType.mk 30 197 3 6 0).vendorID = 30 ∧
     (Std_VersionInfoType.mk 30 197 3 6 0).moduleID = 197 ∧
     (Std_VersionInfoType.mk 30 197 3 6 0).sw_major_version = 3 ∧
     (Std_VersionInfoType.mk 30 197 3 6 0).sw_minor_version = 6 ∧
     (Std_VersionInfoType.mk 30 197 3 6 0).sw_patch_version = 0) := by
  exact ⟨fun v m a b c => ⟨rfl, rfl, rfl, rfl, rfl⟩, rfl, rfl, rfl, rfl, rfl⟩

/-- C3: the five transformer-class constants are pairwise distinct, take
the values 0, 1, 2, 3 and 255 respectively, and the custom value equals
the maximum representable 8-bit value. -/
theorem C3_transformerClass_constants :
    STD_TRANSFORMER_UNSPECIFIED = 0 ∧
    STD_TRANSFORMER_SERIALIZER = 1 ∧
    STD_TRANSFORMER_SAFETY = 2 ∧
    STD_TRANSFORMER_SECURITY = 3 ∧
    STD_TRANSFORMER_CUSTOM = 255 ∧
    STD_TRANSFORMER_CUSTOM = 2 ^ 8 - 1 ∧
    ([STD_TRANSFORMER_UNSPECIFIED, STD_TRANSFORMER_SERIALIZER,
      STD_TRANSFORMER_SAFETY, STD_TRANSFORMER_SECURITY,
      STD_TRANSFORMER_CUSTOM] : List Nat).Nodup := by
  decide

/-- C4: each of the three paired logical/physical constants maps to
exactly the set \x7b0,1\x7d with no overlap within a pair: STD_HIGH=1 and
STD_LOW=0, STD_ACTIVE=1 and STD_IDLE=0, STD_ON=1 and STD_OFF=0. -/
theorem C4_level_constants :
    STD_HIGH = 1 ∧ STD_LOW = 0 ∧ STD_HIGH ≠ STD_LOW ∧
    STD_ACTIVE = 1 ∧ STD_IDLE = 0 ∧ STD_ACTIVE ≠ STD_IDLE ∧
    STD_ON = 1 ∧ STD_OFF = 0 ∧ STD_ON ≠ STD_OFF ∧
    ({STD_HIGH, STD_LOW} : Finset Nat) = {0, 1} ∧
    ({STD_ACTIVE, STD_IDLE} : Finset Nat) = {0, 1} ∧
    ({STD_ON, STD_OFF} : Finset Nat) = {0, 1} := by
  decide

/-- C5: the message-type constants form the distinct two-valued set
\x7b0,1\x7d with request=0 and response=1, and the message-result
constants form the distinct two-valued set \x7b0,1\x7d with ok=0 and
error=1. -/
theorem C5_message_constants :
    STD_MESSAGETYPE_REQUEST = 0 ∧ STD_MESSAGETYPE_RESPONSE = 1 ∧
    STD_MESSAGETYPE_REQUEST ≠ STD_MESSAGETYPE_RESPONSE ∧
    ({STD_MESSAGETYPE_REQUEST, STD_MESSAGETYPE_RESPONSE} : Finset Nat) = {0, 1} ∧
    STD_MESSAGERESULT_OK = 0 ∧ STD_MESSAGERESULT_ERROR = 1 ∧
    STD_MESSAGERESULT_OK ≠ STD_MESSAGERESULT_ERROR ∧
    ({STD_MESSAGERESULT_OK, STD_MESSAGERESULT_ERROR} : Finset Nat) = {0, 1} := by
  decide

/-- C6: Std_VersionInfoType has exactly the five fields vendorID,
moduleID, sw_major_version, sw_minor_version, sw_patch_version in that
order (every value is rebuilt from exactly those five projections), the
first two being 16-bit unsigned values and the last three 8-bit unsigned
values. -/
theorem C6_versionInfo_fields :
    ∀ (r : Std_VersionInfoType),
      r = Std_VersionInfoType.mk r.vendorID r.moduleID
            r.sw_major_version r.sw_minor_version r.sw_patch_version ∧
      r.vendorID.val < 2 ^ 16 ∧ r.moduleID.val < 2 ^ 16 ∧
      r.sw_major_version.val < 2 ^ 8 ∧ r.sw_minor_version.val < 2 ^ 8 ∧
      r.sw_patch_version.val < 2 ^ 8 := by
  intro r
  exact ⟨rfl, r.vendorID.isLt, r.moduleID.isLt, r.sw_major_version.isLt,
    r.sw_minor_version.isLt, r.sw_patch_version.isLt⟩

/-- C7: Std_ReturnType is an 8-bit unsigned value, so every status code
it carries lies in the range 0..255, with the success constant E_OK
being 0 and the failure constant E_NOT_OK being 1. -/
theorem C7_returnType_range :
    (∀ (x : Std_ReturnType), x.val ≤ 255) ∧
    (∀ (x : Std_ReturnType), x.val < 2 ^ 8) ∧
    E_OK = 0 ∧ E_NOT_OK = 1 := by
  exact ⟨fun x => Nat.le_of_lt_succ x.isLt, fun x => x.isLt, rfl, rfl⟩

/-- C8: every Std_TransformerError constructed from a given error code
and a given class tag reads the errorCode and transformerClass fields
back unchanged, each field being an 8-bit value. -/
theorem C8_transformerError_roundtrip :
    ∀ (c : Std_TransformerErrorCode) (k : Std_TransformerClass),
      (Std_TransformerError.mk c k).errorCode = c ∧
      (Std_TransformerError.mk c k).transformerClass = k ∧
      (Std_TransformerError.mk c k).errorCode.val < 2 ^ 8 ∧
      (Std_TransformerError.mk c k).transformerClass.val < 2 ^ 8 := by
  intro c k
  exact ⟨rfl, rfl, c.isLt, k.isLt⟩

/-- C9: the function-pointer type Std_ExtractProtocolHeaderFieldsType is
exactly the signature of a callback taking a constant byte buffer, a
32-bit unsigned buffer length and two caller-supplied output locations
(for a message-type tag and a message-result tag, embedded as result
components) and returning Std_ReturnType: it coincides with the signature
written from the spec's words. -/
theorem C9_extract_signature :
    Std_ExtractProtocolHeaderFieldsType = SpecExtractProtocolHeaderCallbackSig ∧
    Std_ExtractProtocolHeaderFieldsType =
      (List uint8 → uint32 →
        Std_ReturnType × Std_MessageTypeType × Std_MessageResultType) := by
  exact ⟨rfl, rfl⟩

/-- C10: every STD_-prefixed alias constant equals its STD_TYPES_-prefixed
counterpart, with the values 30, 197, 4/7/0 and 3/6/0. -/
theorem C10_alias_constants :
    STD_VENDOR_ID = STD_TYPES_VENDOR_ID ∧ STD_TYPES_VENDOR_ID = 30 ∧
    STD_MODULE_ID = STD_TYPES_MODULE_ID ∧ STD_TYPES_MODULE_ID = 197 ∧
    STD_AR_RELEASE_MAJOR_VERSION = STD_TYPES_AR_RELEASE_MAJOR_VERSION ∧
    STD_TYPES_AR_RELEASE_MAJOR_VERSION = 4 ∧
    STD_AR_RELEASE_MINOR_VERSION = STD_TYPES_AR_RELEASE_MINOR_VERSION ∧
    STD_TYPES_AR_RELEASE_MINOR_VERSION = 7 ∧
    STD_AR_RELEASE_REVISION_VERSION = STD_TYPES_AR_RELEASE_REVISION_VERSION ∧
    STD_TYPES_AR_RELEASE_REVISION_VERSION = 0 ∧
    STD_SW_MAJOR_VERSION = STD_TYPES_SW_MAJOR_VERSION ∧
    STD_TYPES_SW_MAJOR_VERSION = 3 ∧
    STD_SW_MINOR_VERSION = STD_TYPES_SW_MINOR_VERSION ∧
    STD_TYPES_SW_MINOR_VERSION = 6 ∧
    STD_SW_PATCH_VERSION = STD_TYPES_SW_PATCH_VERSION ∧
    STD_TYPES_SW_PATCH_VERSION = 0 := by
  decide
